import Mathlib

/- Verification of the South Pole logistics emissions calculator
   (argonne_final/south_pole_traverse.py).

   Modelling choices: Python floats are modelled as exact rationals.
   Python dicts are modelled as ordered association lists from strings to
   rationals; real Python dicts never carry duplicate keys, and lemmas
   that need that fact take a Nodup hypothesis. A Python KeyError or
   ZeroDivisionError is modelled as Option.none. Divisions by nonzero
   numeric literals are written with plain field division, which agrees
   with Python on those denominators; divisions whose denominator depends
   on an input go through pydiv, which models the ZeroDivisionError that
   Python raises on a zero denominator. -/

abbrev EmissionsDict : Type := List (String × ℚ)

def dictLookup : EmissionsDict → String → Option ℚ
  | [], _ => none
  | (k, v) :: rest, p => if k = p then some v else dictLookup rest p

def dictKeys (d : EmissionsDict) : List String := d.map Prod.fst

def dictGetD (d : EmissionsDict) (p : String) : ℚ := (dictLookup d p).getD 0

/-- Division as Python performs it on floats: a zero denominator raises
ZeroDivisionError, modelled by none. -/
def pydiv (a b : ℚ) : Option ℚ := if b = 0 then none else some (a / b)

/-- Embedding of calculate_truck_emissions: emissions of a truck over a
round trip, loaded leg at 684 Btu per ton-mile, empty leg at a flat
13567 Btu per mile, diesel at 138700 Btu per gallon, times the factor
table, times the trip count. -/
def calculate_truck_emissions (miles cargo_weight_in_tons quantity : ℚ) : EmissionsDict :=
  let btu_per_gallon_diesel : ℚ := 138700
  let energy_intensity_truck_origin_to_destination : ℚ := 684
  let btu_per_mile_empty : ℚ := 13567
  let emissions_factors_truck : List (String × ℚ) :=
    [("CO2", 89.77044869), ("CH4", 0.109408298), ("N2O", 0.000355609)]
  let btu_per_mile_truck_origin_to_destination :=
    energy_intensity_truck_origin_to_destination * cargo_weight_in_tons
  let gallons_per_mile_truck_origin_to_destination :=
    btu_per_mile_truck_origin_to_destination / btu_per_gallon_diesel
  let gallons_per_mile_empty := btu_per_mile_empty / btu_per_gallon_diesel
  emissions_factors_truck.map (fun ef =>
    (ef.1,
      (ef.2 * gallons_per_mile_truck_origin_to_destination * btu_per_gallon_diesel / 1e6 * miles
        + ef.2 * gallons_per_mile_empty * btu_per_gallon_diesel / 1e6 * miles) * quantity))

/-- Embedding of calculate_co2_equivalent: AR6 GWP100 conversion; a
missing key is a KeyError, modelled by none. Python looks the keys up
in the order CO2, CH4, N2O. -/
def calculate_co2_equivalent (emissions_dictionary : EmissionsDict) : Option ℚ :=
  match dictLookup emissions_dictionary "CO2",
        dictLookup emissions_dictionary "CH4",
        dictLookup emissions_dictionary "N2O" with
  | some co2, some ch4, some n2o => some (co2 * 1 + ch4 * 29.8 + n2o * 273)
  | _, _, _ => none

/-- Embedding of calculate_tanker_emissions: loaded leg at 43 Btu per
ton-mile, empty back-haul from the horsepower formula, residual oil at
149700 Btu per gallon, times the factor table, times the tanker count. -/
def calculate_tanker_emissions (miles cargo_weight number_of_tankers : ℚ) : EmissionsDict :=
  let btu_per_gallon_residual_oil : ℚ := 149700
  let energy_intensity_tanker_origin_to_destination : ℚ := 43
  let load_factor_tanker_back_haul : ℚ := 0.70
  let hp_tanker : ℚ := 19170
  let average_speed_tanker : ℚ := 20
  let energy_consumption_tanker : ℚ := 5439
  let emissions_factors_tanker : List (String × ℚ) :=
    [("CO2", 262.9991694), ("CH4", 0.293135661), ("N2O", 0.006037729)]
  let btu_per_mile_tanker_origin_to_destination :=
    energy_intensity_tanker_origin_to_destination * cargo_weight
  let btu_per_mile_tanker_back_haul :=
    (energy_consumption_tanker * hp_tanker * load_factor_tanker_back_haul) / average_speed_tanker
  let gallons_per_mile_tanker_origin_to_destination :=
    btu_per_mile_tanker_origin_to_destination / btu_per_gallon_residual_oil
  let gallons_per_mile_tanker_back_haul :=
    btu_per_mile_tanker_back_haul / btu_per_gallon_residual_oil
  emissions_factors_tanker.map (fun pf =>
    (pf.1,
      (pf.2 * gallons_per_mile_tanker_origin_to_destination * btu_per_gallon_residual_oil / 1e6 * miles
        + pf.2 * gallons_per_mile_tanker_back_haul * btu_per_gallon_residual_oil / 1e6 * miles)
        * number_of_tankers))

/-- Embedding of calculate_fuelused_emissions: upstream fuel-production
emissions implied by the distances travelled, using fixed mpg figures and
the production factor tables for residual oil and diesel. -/
def calculate_fuelused_emissions (miles_ocean_tanker miles_truck : ℚ) : EmissionsDict :=
  let btu_per_gallon_diesel : ℚ := 138700
  let btu_per_gallon_resid : ℚ := 149700
  let energy_consumption_btu_hphr : ℚ := 5439
  let engine_efficiency : ℚ := 0.50
  let average_speed_mph_tanker : ℚ := 20
  let mpg_truck : ℚ := 5.6
  let gallons_per_hour_per_hp_tanker :=
    energy_consumption_btu_hphr / (btu_per_gallon_resid * engine_efficiency)
  let mpg_tanker := average_speed_mph_tanker / gallons_per_hour_per_hp_tanker
  let gallons_per_mile_tanker := 1.0 / mpg_tanker
  let gallons_per_mile_truck := 1.0 / mpg_truck
  let total_fuel_consumption_tanker := miles_ocean_tanker * gallons_per_mile_tanker
  let total_fuel_consumption_truck := miles_truck * gallons_per_mile_truck
  let total_fuel_consumption_mmBtu_tanker := total_fuel_consumption_tanker * btu_per_gallon_resid / 1e6
  let total_fuel_consumption_mmBtu_truck := total_fuel_consumption_truck * btu_per_gallon_diesel / 1e6
  [("CO2", total_fuel_consumption_mmBtu_tanker * 9670.93 + total_fuel_consumption_mmBtu_truck * 12747.98),
   ("CH4", total_fuel_consumption_mmBtu_tanker * 100.419 + total_fuel_consumption_mmBtu_truck * 109.519),
   ("N2O", total_fuel_consumption_mmBtu_tanker * 0.162 + total_fuel_consumption_mmBtu_truck * 0.233)]

/-- Embedding of calculate_emissions_from_diesel: diesel volume converted
to mmBtu and multiplied by the diesel production factor table. -/
def calculate_emissions_from_diesel (gallons_diesel : ℚ) : EmissionsDict :=
  let btu_per_gallon_diesel : ℚ := 138700
  let emissions_factors_diesel : List (String × ℚ) :=
    [("CO2", 12747.98), ("CH4", 109.519), ("N2O", 0.233)]
  let total_energy_mmBtu := gallons_diesel * btu_per_gallon_diesel / 1e6
  emissions_factors_diesel.map (fun pf => (pf.1, total_energy_mmBtu * pf.2))

/-- A value of the mixed-shape additional-emissions mapping: either a bare
CO2-equivalent scalar (bess, solar, wind) or a nested pollutant record
(diesel). -/
inductive EmissionValue : Type where
  | scalar (v : ℚ)
  | record (d : EmissionsDict)
deriving DecidableEq

/-- Embedding of embodied_renewable_emissions: scalar CO2E totals for
bess, solar and wind, and a nested record for diesel production. -/
def embodied_renewable_emissions (target_solar target_wind target_bess_energy target_diesel : ℚ) :
    List (String × EmissionValue) :=
  let emissions_factor_bess : ℚ := 220000
  let emissions_factor_solar : ℚ := 1100000
  let emissions_factor_wind : ℚ := 683700
  [("bess", EmissionValue.scalar (target_bess_energy * emissions_factor_bess)),
   ("solar", EmissionValue.scalar (target_solar * emissions_factor_solar)),
   ("wind", EmissionValue.scalar (target_wind * emissions_factor_wind)),
   ("diesel", EmissionValue.record (calculate_emissions_from_diesel target_diesel))]

/-- One step of the accumulation in sum_emissions: Python executes
total_emissions[pollutant] += amount when the key is present and
total_emissions[pollutant] = amount otherwise, which on an ordered
association list updates in place or appends at the end. -/
def dictAddOrInsert : EmissionsDict → String → ℚ → EmissionsDict
  | [], k, v => [(k, v)]
  | (k1, v1) :: rest, k, v =>
      if k1 = k then (k1, v1 + v) :: rest else (k1, v1) :: dictAddOrInsert rest k v

/-- The inner loop of sum_emissions: fold every entry of one input
dictionary into the running total. -/
def foldAddDict (acc : EmissionsDict) (emissions : EmissionsDict) : EmissionsDict :=
  emissions.foldl (fun acc2 kv => dictAddOrInsert acc2 kv.1 kv.2) acc

/-- Embedding of sum_emissions over an explicit list of dictionaries
(Python takes them as varargs): fold every entry of every input into an
initially empty total. -/
def sum_emissions (emission_dicts : List EmissionsDict) : EmissionsDict :=
  emission_dicts.foldl foldAddDict []

/-- One step of the accumulation in consolidate_scenario_emissions:
total_emissions[pollutant] += amount with NO insertion fallback, so a key
absent from the running total raises KeyError, modelled by none. -/
def dictAddExisting : EmissionsDict → String → ℚ → Option EmissionsDict
  | [], _, _ => none
  | (k1, v1) :: rest, k, v =>
      if k1 = k then some ((k1, v1 + v) :: rest)
      else (dictAddExisting rest k v).map (fun r => (k1, v1) :: r)

/-- Fold one pollutant record into the running consolidation total,
stopping at the first KeyError. -/
def addRecordInto : EmissionsDict → EmissionsDict → Option EmissionsDict
  | acc, [] => some acc
  | acc, (p, a) :: rest =>
      match dictAddExisting acc p a with
      | none => none
      | some acc2 => addRecordInto acc2 rest

/-- Fold the transport-emissions mapping (unit name to record) into the
running consolidation total. -/
def addTransport : EmissionsDict → List (String × EmissionsDict) → Option EmissionsDict
  | acc, [] => some acc
  | acc, (_, unit) :: rest =>
      match addRecordInto acc unit with
      | none => none
      | some acc2 => addTransport acc2 rest

/-- Fold the additional-emissions mapping into the running consolidation
total: nested records add pollutant-wise, bare scalars add into CO2. -/
def addAdditional : EmissionsDict → List (String × EmissionValue) → Option EmissionsDict
  | acc, [] => some acc
  | acc, (_, EmissionValue.record d) :: rest =>
      match addRecordInto acc d with
      | none => none
      | some acc2 => addAdditional acc2 rest
  | acc, (_, EmissionValue.scalar v) :: rest =>
      match dictAddExisting acc "CO2" v with
      | none => none
      | some acc2 => addAdditional acc2 rest

/-- Embedding of consolidate_scenario_emissions: start from a total that
holds CO2, CH4 and N2O at zero, add every transport record pollutant-wise,
then add the additional mapping where dict values add pollutant-wise and
scalar values add into CO2 only. -/
def consolidate_scenario_emissions (transport_emissions : List (String × EmissionsDict))
    (additional_emissions : List (String × EmissionValue)) : Option EmissionsDict :=
  let total_emissions : EmissionsDict := [("CO2", 0), ("CH4", 0), ("N2O", 0)]
  match addTransport total_emissions transport_emissions with
  | none => none
  | some acc => addAdditional acc additional_emissions

/-- Embedding of transportation_scenario_emissions: derive each component
weight, then run each component through one full-cargo tanker leg, one
half-cargo tanker leg with 2 tankers, and one truck leg splitting the
cargo across a component-specific vehicle count. Divisions whose
denominator depends on the inputs use pydiv. -/
def transportation_scenario_emissions (target_solar turbine_power target_wind
    target_bess_power target_bess_energy target_diesel : ℚ) :
    Option (List (String × EmissionsDict)) := do
  let pv_g_kw : ℚ := 160
  let bess_container_weight_kg : ℚ := 18000
  let bess_energy_capacity_kwh : ℚ := 1240
  let nps_100c_24_weight : ℚ := 19.8
  let num_turbines ← pydiv target_wind turbine_power
  let total_weight_turbines := num_turbines * nps_100c_24_weight
  let total_grams_pv := target_solar * pv_g_kw
  let total_tons_pv := total_grams_pv / 907185
  let num_bess_units := target_bess_energy / bess_energy_capacity_kwh
  let total_weight_bess_tons := num_bess_units * (bess_container_weight_kg / 1000)
  let total_weight_diesel_tons := (target_diesel * 6.5) / 2000
  let wind_truck_cargo ← pydiv total_weight_turbines (num_turbines * 7)
  let wind_trip_emissions := sum_emissions
    [calculate_tanker_emissions 6900 total_weight_turbines 1,
     calculate_tanker_emissions 2415 (total_weight_turbines / 2) 2,
     calculate_truck_emissions 1030 wind_truck_cargo (num_turbines * 7)]
  let pv_trip_emissions := sum_emissions
    [calculate_tanker_emissions 6900 total_tons_pv 1,
     calculate_tanker_emissions 2415 (total_tons_pv / 2) 2,
     calculate_truck_emissions 1030 (total_tons_pv / 9) 9]
  let bess_truck_cargo ← pydiv total_weight_bess_tons num_bess_units
  let bess_trip_emissions := sum_emissions
    [calculate_tanker_emissions 6900 total_weight_bess_tons 1,
     calculate_tanker_emissions 2415 (total_weight_bess_tons / 2) 2,
     calculate_truck_emissions 100 bess_truck_cargo num_bess_units]
  let diesel_trip_emissions := sum_emissions
    [calculate_tanker_emissions 6900 total_weight_diesel_tons 1,
     calculate_tanker_emissions 2415 (total_weight_diesel_tons / 2) 2,
     calculate_truck_emissions 1030 (total_weight_diesel_tons / 9) 9]
  return [("wind_turbines_transport", wind_trip_emissions),
          ("pv_panels_transport", pv_trip_emissions),
          ("bess_units_transport", bess_trip_emissions),
          ("diesel_transport", diesel_trip_emissions)]

/-- Total amount recorded for pollutant p in an association list, summing
over every occurrence of the key (a real Python dict has at most one). -/
def amountAt (d : EmissionsDict) (p : String) : ℚ :=
  ((d.filter (fun kv => kv.1 == p)).map Prod.snd).sum

/-- Total amount for pollutant p across a list of dictionaries. -/
def sumAmount (ds : List EmissionsDict) (p : String) : ℚ :=
  (ds.map (fun d => amountAt d p)).sum

/-- Total contribution of the transport-emissions mapping to pollutant p:
every unit record is added pollutant-wise. -/
def transportAmount (ts : List (String × EmissionsDict)) (p : String) : ℚ :=
  (ts.map (fun u => amountAt u.2 p)).sum

/-- Total contribution of the additional-emissions mapping to pollutant p:
nested records add pollutant-wise, bare scalars add into CO2 only. -/
def additionalAmount (ad : List (String × EmissionValue)) (p : String) : ℚ :=
  (ad.map (fun kv =>
    match kv.2 with
    | EmissionValue.record d => amountAt d p
    | EmissionValue.scalar v => if p = "CO2" then v else 0)).sum

/-- All keys of a nested record lie in the fixed pollutant set; scalars
carry no keys. -/
def valueKeysOk : EmissionValue → Prop
  | EmissionValue.scalar _ => True
  | EmissionValue.record d => ∀ kv ∈ d, kv.1 = "CO2" ∨ kv.1 = "CH4" ∨ kv.1 = "N2O"

instance : DecidablePred valueKeysOk := fun v =>
  match v with
  | EmissionValue.scalar _ => Decidable.isTrue trivial
  | EmissionValue.record d =>
      inferInstanceAs (Decidable (∀ kv ∈ d, kv.1 = "CO2" ∨ kv.1 = "CH4" ∨ kv.1 = "N2O"))

/-- Claim C1: for every miles m, cargo weight w and trip count q, the
truck leg calculator returns, for each pollutant, exactly
factor * ((684 * w) / 1e6 * m + 13567 / 1e6 * m) * q grams, and the
reference scenario calculate_truck_emissions 1000 20 5 reproduces the
documented formula value for each factor. -/
theorem C1_truck_formula (m w q : ℚ) :
    calculate_truck_emissions m w q =
      [("CO2", (89.77044869 : ℚ) * ((684 * w) / 1e6 * m + 13567 / 1e6 * m) * q),
       ("CH4", (0.109408298 : ℚ) * ((684 * w) / 1e6 * m + 13567 / 1e6 * m) * q),
       ("N2O", (0.000355609 : ℚ) * ((684 * w) / 1e6 * m + 13567 / 1e6 * m) * q)] ∧
    calculate_truck_emissions 1000 20 5 =
      [("CO2", ((89.77044869 : ℚ) * ((684 * 20) / 138700) * (138700 / 1e6) * 1000
          + (89.77044869 : ℚ) * (13567 / 138700) * (138700 / 1e6) * 1000) * 5),
       ("CH4", ((0.109408298 : ℚ) * ((684 * 20) / 138700) * (138700 / 1e6) * 1000
          + (0.109408298 : ℚ) * (13567 / 138700) * (138700 / 1e6) * 1000) * 5),
       ("N2O", ((0.000355609 : ℚ) * ((684 * 20) / 138700) * (138700 / 1e6) * 1000
          + (0.000355609 : ℚ) * (13567 / 138700) * (138700 / 1e6) * 1000) * 5)] := by
  constructor
  · simp only [calculate_truck_emissions, List.map, List.cons.injEq, Prod.mk.injEq,
      and_true, true_and]
    refine ⟨?_, ?_, ?_⟩ <;> ring
  · simp only [calculate_truck_emissions, List.map, List.cons.injEq, Prod.mk.injEq,
      and_true, true_and]
    norm_num

/-- Claim C3: for every record containing the keys CO2, CH4 and N2O, the
CO2-equivalent conversion returns exactly CO2 * 1 + CH4 * 29.8 + N2O * 273,
and on the documented reference record the result matches the rounded
reference computation to well within one gram. -/
theorem C3_co2_equivalent (d : EmissionsDict) (a b c : ℚ)
    (h1 : dictLookup d "CO2" = some a) (h2 : dictLookup d "CH4" = some b)
    (h3 : dictLookup d "N2O" = some c) :
    calculate_co2_equivalent d = some (a * 1 + b * 29.8 + c * 273) ∧
    ∃ v : ℚ, calculate_co2_equivalent
        [("CO2", (233759086.75851363 : ℚ)), ("CH4", 1922227.9395642178),
         ("N2O", 4325.249834421531)] = some v ∧
      |v - ((233759086.76 : ℚ) + 1922227.94 * 29.8 + 4325.25 * 273)| < 1 := by
  refine ⟨?_, ?_⟩
  · simp [calculate_co2_equivalent, h1, h2, h3]
  · refine ⟨(233759086.75851363 : ℚ) * 1 + 1922227.9395642178 * 29.8
      + 4325.249834421531 * 273, ?_, ?_⟩
    · simp [calculate_co2_equivalent, dictLookup]
    · rw [abs_lt]
      constructor <;> norm_num

/-- Witness for C3 at a concrete record with all three keys present. -/
theorem C3_co2_equivalent_witness :
    calculate_co2_equivalent [("CO2", (1 : ℚ)), ("CH4", 2), ("N2O", 3)]
      = some (1 * 1 + 2 * 29.8 + 3 * 273) :=
  (C3_co2_equivalent [("CO2", (1 : ℚ)), ("CH4", 2), ("N2O", 3)] 1 2 3
    (by simp [dictLookup]) (by simp [dictLookup]) (by simp [dictLookup])).1

/-- Claim C7: supplying zero turbine unit power makes the scenario
composer surface an explicit error (Python raises ZeroDivisionError when
computing the turbine count, modelled by none) rather than silently
producing a result; the other divisor named by the claim, the BESS unit
energy capacity, is the fixed literal 1240 in the code and cannot be
supplied by the caller at all. -/
theorem C7_zero_turbine_power (target_solar target_wind target_bess_power
    target_bess_energy target_diesel : ℚ) :
    transportation_scenario_emissions target_solar 0 target_wind
      target_bess_power target_bess_energy target_diesel = none := by
  simp [transportation_scenario_emissions, pydiv]

/-- Claim C8: for all non-negative inputs, every pollutant value returned
by the truck, tanker, fuel-production and diesel-production calculators is
non-negative. -/
theorem C8_nonneg (m w q mt mk g : ℚ) (hm : 0 ≤ m) (hw : 0 ≤ w) (hq : 0 ≤ q)
    (hmt : 0 ≤ mt) (hmk : 0 ≤ mk) (hg : 0 ≤ g) :
    (∀ kv ∈ calculate_truck_emissions m w q, 0 ≤ kv.2) ∧
    (∀ kv ∈ calculate_tanker_emissions m w q, 0 ≤ kv.2) ∧
    (∀ kv ∈ calculate_fuelused_emissions mt mk, 0 ≤ kv.2) ∧
    (∀ kv ∈ calculate_emissions_from_diesel g, 0 ≤ kv.2) := by
  refine ⟨?_, ?_, ?_, ?_⟩ <;>
    · simp only [calculate_truck_emissions, calculate_tanker_emissions,
        calculate_fuelused_emissions, calculate_emissions_from_diesel,
        List.map, List.forall_mem_cons, List.not_mem_nil]
      refine ⟨?_, ?_, ?_, fun _ h => h.elim⟩ <;> positivity

/-- Witness for C8 at concrete non-negative inputs. -/
theorem C8_nonneg_witness :
    (0 : ℚ) ≤ 1000 ∧ (0 : ℚ) ≤ 20 ∧ (0 : ℚ) ≤ 5 ∧
    ((∀ kv ∈ calculate_truck_emissions 1000 20 5, 0 ≤ kv.2) ∧
     (∀ kv ∈ calculate_tanker_emissions 1000 20 5, 0 ≤ kv.2) ∧
     (∀ kv ∈ calculate_fuelused_emissions 1000 20, 0 ≤ kv.2) ∧
     (∀ kv ∈ calculate_emissions_from_diesel 5, 0 ≤ kv.2)) :=
  ⟨by norm_num, by norm_num, by norm_num,
    C8_nonneg 1000 20 5 1000 20 5 (by norm_num) (by norm_num) (by norm_num)
      (by norm_num) (by norm_num) (by norm_num)⟩

/-- Claim C9: every record returned by the truck, tanker, fuel-production
and diesel-production calculators has exactly the key list CO2, CH4, N2O,
for every input. -/
theorem C9_record_keys (m w q mt mk g : ℚ) :
    dictKeys (calculate_truck_emissions m w q) = ["CO2", "CH4", "N2O"] ∧
    dictKeys (calculate_tanker_emissions m w q) = ["CO2", "CH4", "N2O"] ∧
    dictKeys (calculate_fuelused_emissions mt mk) = ["CO2", "CH4", "N2O"] ∧
    dictKeys (calculate_emissions_from_diesel g) = ["CO2", "CH4", "N2O"] :=
  ⟨rfl, rfl, rfl, rfl⟩

theorem amountAt_nil (p : String) : amountAt [] p = 0 := rfl

theorem amountAt_cons (k : String) (v : ℚ) (d : EmissionsDict) (p : String) :
    amountAt ((k, v) :: d) p = (if k = p then v else 0) + amountAt d p := by
  by_cases h : k = p <;> simp [amountAt, List.filter_cons, h]

theorem dictLookup_eq_none_iff (d : EmissionsDict) (p : String) :
    dictLookup d p = none ↔ p ∉ dictKeys d := by
  induction d with
  | nil => simp [dictLookup, dictKeys]
  | cons kv rest ih =>
      obtain ⟨k, v⟩ := kv
      rw [dictLookup]
      by_cases h : k = p
      · simp [dictKeys, h]
      · rw [if_neg h, ih]
        simp only [dictKeys, List.map_cons, List.mem_cons]
        constructor
        · intro hnm
          rintro (rfl | hm)
          · exact h rfl
          · exact hnm hm
        · intro hn hm
          exact hn (Or.inr hm)

theorem amountAt_of_not_mem (d : EmissionsDict) (p : String) (h : p ∉ dictKeys d) :
    amountAt d p = 0 := by
  induction d with
  | nil => rfl
  | cons kv rest ih =>
      obtain ⟨k, v⟩ := kv
      simp only [dictKeys, List.map_cons, List.mem_cons] at h
      push_neg at h
      rw [amountAt_cons, if_neg (fun hk => h.1 hk.symm), ih (by simpa [dictKeys] using h.2)]
      simp

theorem dictLookup_addOrInsert (d : EmissionsDict) (k : String) (v : ℚ) (p : String) :
    dictLookup (dictAddOrInsert d k v) p
      = if k = p then some (dictGetD d p + v) else dictLookup d p := by
  induction d with
  | nil =>
      by_cases h : k = p <;> simp [dictAddOrInsert, dictLookup, dictGetD, h]
  | cons kv rest ih =>
      obtain ⟨k1, v1⟩ := kv
      by_cases h1 : k1 = k
      · by_cases h2 : k = p
        · have h3 : k1 = p := h1.trans h2
          simp [dictAddOrInsert, dictLookup, dictGetD, h1, h2, h3]
        · have h3 : ¬k1 = p := fun hc => h2 (h1.symm.trans hc)
          simp [dictAddOrInsert, dictLookup, h1, h2, h3]
      · by_cases h2 : k1 = p
        · have h3 : ¬k = p := fun hc => h1 (h2.trans hc.symm)
          have h4 : ¬p = k := fun hc => h3 hc.symm
          simp [dictAddOrInsert, dictLookup, h1, h2, h3, h4]
        · simp [dictAddOrInsert, dictLookup, dictGetD, h1, h2, ih]

theorem dictGetD_addOrInsert (d : EmissionsDict) (k : String) (v : ℚ) (p : String) :
    dictGetD (dictAddOrInsert d k v) p
      = if k = p then dictGetD d p + v else dictGetD d p := by
  rw [dictGetD, dictLookup_addOrInsert]
  by_cases h : k = p <;> simp [h, dictGetD]

theorem dictLookup_foldAddDict (d : EmissionsDict) (acc : EmissionsDict) (p : String) :
    dictLookup (foldAddDict acc d) p
      = if p ∈ dictKeys d then some (dictGetD acc p + amountAt d p) else dictLookup acc p := by
  induction d generalizing acc with
  | nil => simp [foldAddDict, dictKeys, amountAt]
  | cons kv rest ih =>
      obtain ⟨k, v⟩ := kv
      have hstep : foldAddDict acc ((k, v) :: rest) = foldAddDict (dictAddOrInsert acc k v) rest := rfl
      rw [hstep, ih]
      by_cases hk : k = p
      · subst hk
        by_cases hr : k ∈ dictKeys rest
        · rw [if_pos hr, if_pos (by simp [dictKeys]), dictGetD_addOrInsert, if_pos rfl,
            amountAt_cons, if_pos rfl, add_assoc]
        · rw [if_neg hr, if_pos (by simp [dictKeys]), dictLookup_addOrInsert, if_pos rfl,
            amountAt_cons, if_pos rfl, amountAt_of_not_mem rest k hr]
          simp
      · by_cases hr : p ∈ dictKeys rest
        · rw [if_pos hr,
            if_pos (by simp only [dictKeys, List.map_cons, List.mem_cons]; exact Or.inr hr),
            dictGetD_addOrInsert, if_neg hk, amountAt_cons, if_neg hk, zero_add]
        · rw [if_neg hr, if_neg ?hmem, dictLookup_addOrInsert, if_neg hk]
          case hmem =>
            simp only [dictKeys, List.map_cons, List.mem_cons]
            rintro (rfl | hm)
            · exact hk rfl
            · exact hr hm

theorem dictGetD_foldAddDict (d : EmissionsDict) (acc : EmissionsDict) (p : String) :
    dictGetD (foldAddDict acc d) p
      = if p ∈ dictKeys d then dictGetD acc p + amountAt d p else dictGetD acc p := by
  rw [dictGetD, dictLookup_foldAddDict]
  by_cases h : p ∈ dictKeys d <;> simp [h, dictGetD]

theorem dictLookup_foldl_sum (ds : List EmissionsDict) (acc : EmissionsDict) (p : String) :
    dictLookup (ds.foldl foldAddDict acc) p
      = if ∃ d ∈ ds, p ∈ dictKeys d then some (dictGetD acc p + sumAmount ds p)
        else dictLookup acc p := by
  induction ds generalizing acc with
  | nil => simp [sumAmount]
  | cons d rest ih =>
      rw [List.foldl_cons, ih]
      by_cases hd : p ∈ dictKeys d
      · by_cases hr : ∃ e ∈ rest, p ∈ dictKeys e
        · rw [if_pos hr, if_pos (by exact ⟨d, List.mem_cons_self _ _, hd⟩),
            dictGetD_foldAddDict, if_pos hd]
          simp only [sumAmount, List.map_cons, List.sum_cons, add_assoc]
        · have hz : sumAmount rest p = 0 := by
            rw [sumAmount]
            apply List.sum_eq_zero
            intro x hx
            simp only [List.mem_map] at hx
            obtain ⟨e, he, rfl⟩ := hx
            exact amountAt_of_not_mem e p (fun hm => hr ⟨e, he, hm⟩)
          rw [if_neg hr, if_pos (by exact ⟨d, List.mem_cons_self _ _, hd⟩),
            dictLookup_foldAddDict, if_pos hd]
          simp only [sumAmount, List.map_cons, List.sum_cons]
          rw [show (rest.map (fun e => amountAt e p)).sum = sumAmount rest p from rfl, hz, add_zero]
      · by_cases hr : ∃ e ∈ rest, p ∈ dictKeys e
        · rw [if_pos hr,
            if_pos (by obtain ⟨e, he, hm⟩ := hr; exact ⟨e, List.mem_cons_of_mem _ he, hm⟩),
            dictGetD_foldAddDict, if_neg hd]
          simp only [sumAmount, List.map_cons, List.sum_cons, amountAt_of_not_mem d p hd, zero_add]
        · rw [if_neg hr, if_neg ?hnone, dictLookup_foldAddDict, if_neg hd]
          case hnone =>
            rintro ⟨e, he, hm⟩
            rcases List.mem_cons.mp he with rfl | he2
            · exact hd hm
            · exact hr ⟨e, he2, hm⟩

theorem amountAt_eq_getD (d : EmissionsDict) (h : (dictKeys d).Nodup) (p : String) :
    amountAt d p = dictGetD d p := by
  induction d with
  | nil => rfl
  | cons kv rest ih =>
      obtain ⟨k, v⟩ := kv
      simp only [dictKeys, List.map_cons, List.nodup_cons] at h
      by_cases hk : k = p
      · subst hk
        rw [amountAt_cons, if_pos rfl, amountAt_of_not_mem rest k (by simpa [dictKeys] using h.1),
          dictGetD, dictLookup, if_pos rfl]
        simp
      · rw [amountAt_cons, if_neg hk, zero_add, ih (by simpa [dictKeys] using h.2),
          dictGetD, dictGetD, dictLookup, if_neg hk]

/-- Claim C5: for every finite sequence of pollutant mappings (each with
duplicate-free keys, as Python dicts are), the Sum aggregator returns a
mapping defined exactly on the union of the input key sets, and at every
key present somewhere its value is the sum of the values over the inputs
that contain it (absent inputs contributing their default of zero); the
embedding is a pure function, so the inputs are not mutated. -/
theorem C5_sum_emissions (ds : List EmissionsDict)
    (hnd : ∀ d ∈ ds, (dictKeys d).Nodup) (p : String) :
    (dictLookup (sum_emissions ds) p = none ↔ ∀ d ∈ ds, dictLookup d p = none) ∧
    ((∃ d ∈ ds, dictLookup d p ≠ none) →
      dictLookup (sum_emissions ds) p = some ((ds.map (fun d => dictGetD d p)).sum)) := by
  have hmain := dictLookup_foldl_sum ds [] p
  rw [show sum_emissions ds = ds.foldl foldAddDict [] from rfl]
  constructor
  · rw [hmain]
    by_cases h : ∃ d ∈ ds, p ∈ dictKeys d
    · rw [if_pos h]
      simp only [reduceCtorEq, false_iff]
      push_neg
      obtain ⟨d, hd, hm⟩ := h
      exact ⟨d, hd, by rw [Ne, dictLookup_eq_none_iff]; exact fun hc => hc hm⟩
    · rw [if_neg h]
      simp only [dictLookup, true_iff]
      intro d hd
      rw [dictLookup_eq_none_iff]
      exact fun hm => h ⟨d, hd, hm⟩
  · intro hex
    have h : ∃ d ∈ ds, p ∈ dictKeys d := by
      obtain ⟨d, hd, hne⟩ := hex
      refine ⟨d, hd, ?_⟩
      by_contra hm
      exact hne ((dictLookup_eq_none_iff d p).mpr hm)
    rw [hmain, if_pos h]
    have : sumAmount ds p = (ds.map (fun d => dictGetD d p)).sum := by
      rw [sumAmount]
      congr 1
      exact List.map_congr_left (fun d hd => amountAt_eq_getD d (hnd d hd) p)
    rw [this, dictGetD, dictLookup]
    simp

theorem dictAddExisting_eq_none_iff (acc : EmissionsDict) (k : String) (v : ℚ) :
    dictAddExisting acc k v = none ↔ k ∉ dictKeys acc := by
  induction acc with
  | nil => simp [dictAddExisting, dictKeys]
  | cons kv rest ih =>
      obtain ⟨k1, v1⟩ := kv
      by_cases h : k1 = k
      · simp [dictAddExisting, dictKeys, h]
      · have h2 : ¬k = k1 := fun hc => h hc.symm
        simp [dictAddExisting, dictKeys, h, h2, ih]

theorem dictAddExisting_keys (acc acc2 : EmissionsDict) (k : String) (v : ℚ)
    (h : dictAddExisting acc k v = some acc2) : dictKeys acc2 = dictKeys acc := by
  induction acc generalizing acc2 with
  | nil => simp [dictAddExisting] at h
  | cons kv rest ih =>
      obtain ⟨k1, v1⟩ := kv
      by_cases h1 : k1 = k
      · rw [dictAddExisting, if_pos h1] at h
        obtain rfl := Option.some.inj h
        simp [dictKeys]
      · rw [dictAddExisting, if_neg h1] at h
        rw [Option.map_eq_some'] at h
        obtain ⟨r, hr, rfl⟩ := h
        show dictKeys ((k1, v1) :: r) = dictKeys ((k1, v1) :: rest)
        simp only [dictKeys, List.map_cons]
        rw [show List.map Prod.fst r = List.map Prod.fst rest from ih r hr]

theorem addRecordInto_none_iff (d : EmissionsDict) (acc : EmissionsDict) :
    addRecordInto acc d = none ↔ ∃ kv ∈ d, kv.1 ∉ dictKeys acc := by
  induction d generalizing acc with
  | nil => simp [addRecordInto]
  | cons kv rest ih =>
      obtain ⟨k, v⟩ := kv
      simp only [addRecordInto]
      cases hstep : dictAddExisting acc k v with
      | none =>
          have hk : k ∉ dictKeys acc := (dictAddExisting_eq_none_iff acc k v).mp hstep
          exact iff_of_true rfl ⟨(k, v), List.mem_cons_self _ _, hk⟩
      | some acc2 =>
          have hkeys := dictAddExisting_keys acc acc2 k v hstep
          have hk : k ∈ dictKeys acc := by
            by_contra hc
            rw [← dictAddExisting_eq_none_iff acc k v, hstep] at hc
            exact Option.noConfusion hc
          rw [ih acc2, hkeys]
          constructor
          · rintro ⟨e, hm, hnm⟩
            exact ⟨e, List.mem_cons_of_mem _ hm, hnm⟩
          · rintro ⟨e, hm, hnm⟩
            rcases List.mem_cons.mp hm with rfl | hm2
            · exact absurd hk hnm
            · exact ⟨e, hm2, hnm⟩

theorem addRecordInto_keys (d acc acc2 : EmissionsDict)
    (h : addRecordInto acc d = some acc2) : dictKeys acc2 = dictKeys acc := by
  induction d generalizing acc with
  | nil =>
      rw [addRecordInto] at h
      obtain rfl := Option.some.inj h
      rfl
  | cons kv rest ih =>
      obtain ⟨k, v⟩ := kv
      rw [addRecordInto] at h
      cases hstep : dictAddExisting acc k v with
      | none => rw [hstep] at h; exact Option.noConfusion h
      | some a2 =>
          rw [hstep] at h
          rw [ih a2 h, dictAddExisting_keys acc a2 k v hstep]

theorem dictAddExisting_triple_co2 (a b c v : ℚ) :
    dictAddExisting [("CO2", a), ("CH4", b), ("N2O", c)] "CO2" v
      = some [("CO2", a + v), ("CH4", b), ("N2O", c)] := by
  simp [dictAddExisting]

theorem dictAddExisting_triple_ch4 (a b c v : ℚ) :
    dictAddExisting [("CO2", a), ("CH4", b), ("N2O", c)] "CH4" v
      = some [("CO2", a), ("CH4", b + v), ("N2O", c)] := by
  simp [dictAddExisting]

theorem dictAddExisting_triple_n2o (a b c v : ℚ) :
    dictAddExisting [("CO2", a), ("CH4", b), ("N2O", c)] "N2O" v
      = some [("CO2", a), ("CH4", b), ("N2O", c + v)] := by
  simp [dictAddExisting]

theorem addRecordInto_triple (d : EmissionsDict) (a b c : ℚ)
    (h : ∀ kv ∈ d, kv.1 = "CO2" ∨ kv.1 = "CH4" ∨ kv.1 = "N2O") :
    addRecordInto [("CO2", a), ("CH4", b), ("N2O", c)] d
      = some [("CO2", a + amountAt d "CO2"), ("CH4", b + amountAt d "CH4"),
              ("N2O", c + amountAt d "N2O")] := by
  induction d generalizing a b c with
  | nil => simp [addRecordInto, amountAt]
  | cons kv rest ih =>
      obtain ⟨k, v⟩ := kv
      have hrest : ∀ kv ∈ rest, kv.1 = "CO2" ∨ kv.1 = "CH4" ∨ kv.1 = "N2O" :=
        fun kv hm => h kv (List.mem_cons_of_mem _ hm)
      rcases h (k, v) (List.mem_cons_self _ _) with hk | hk | hk <;> subst hk <;>
        simp only [addRecordInto, dictAddExisting_triple_co2, dictAddExisting_triple_ch4,
          dictAddExisting_triple_n2o] <;>
        rw [ih _ _ _ hrest] <;>
        simp [amountAt_cons, add_assoc]

theorem addTransport_triple (ts : List (String × EmissionsDict)) (a b c : ℚ)
    (h : ∀ u ∈ ts, ∀ kv ∈ u.2, kv.1 = "CO2" ∨ kv.1 = "CH4" ∨ kv.1 = "N2O") :
    addTransport [("CO2", a), ("CH4", b), ("N2O", c)] ts
      = some [("CO2", a + transportAmount ts "CO2"), ("CH4", b + transportAmount ts "CH4"),
              ("N2O", c + transportAmount ts "N2O")] := by
  induction ts generalizing a b c with
  | nil => simp [addTransport, transportAmount]
  | cons u rest ih =>
      obtain ⟨name, d⟩ := u
      have hd : ∀ kv ∈ d, kv.1 = "CO2" ∨ kv.1 = "CH4" ∨ kv.1 = "N2O" :=
        h (name, d) (List.mem_cons_self _ _)
      have hrest : ∀ u ∈ rest, ∀ kv ∈ u.2, kv.1 = "CO2" ∨ kv.1 = "CH4" ∨ kv.1 = "N2O" :=
        fun u hm => h u (List.mem_cons_of_mem _ hm)
      simp only [addTransport, addRecordInto_triple d a b c hd]
      rw [ih _ _ _ hrest]
      simp [transportAmount, add_assoc]

theorem addTransport_keys (ts : List (String × EmissionsDict)) (acc acc2 : EmissionsDict)
    (h : addTransport acc ts = some acc2) : dictKeys acc2 = dictKeys acc := by
  induction ts generalizing acc with
  | nil =>
      rw [addTransport] at h
      obtain rfl := Option.some.inj h
      rfl
  | cons u rest ih =>
      obtain ⟨name, d⟩ := u
      rw [addTransport] at h
      cases hstep : addRecordInto acc d with
      | none => rw [hstep] at h; exact Option.noConfusion h
      | some a2 =>
          rw [hstep] at h
          rw [ih a2 h, addRecordInto_keys d acc a2 hstep]

theorem addTransport_none_iff (ts : List (String × EmissionsDict)) (acc : EmissionsDict) :
    addTransport acc ts = none ↔ ∃ u ∈ ts, ∃ kv ∈ u.2, kv.1 ∉ dictKeys acc := by
  induction ts generalizing acc with
  | nil => simp [addTransport]
  | cons u rest ih =>
      obtain ⟨name, d⟩ := u
      simp only [addTransport]
      cases hstep : addRecordInto acc d with
      | none =>
          obtain ⟨kv, hkv, hnm⟩ := (addRecordInto_none_iff d acc).mp hstep
          exact iff_of_true rfl ⟨(name, d), List.mem_cons_self _ _, kv, hkv, hnm⟩
      | some acc2 =>
          have hkeys := addRecordInto_keys d acc acc2 hstep
          rw [ih acc2, hkeys]
          constructor
          · rintro ⟨u, hm, hbad⟩
            exact ⟨u, List.mem_cons_of_mem _ hm, hbad⟩
          · rintro ⟨u, hm, kv, hkv, hnm⟩
            rcases List.mem_cons.mp hm with rfl | hm2
            · exfalso
              have : addRecordInto acc d = none :=
                (addRecordInto_none_iff d acc).mpr ⟨kv, hkv, hnm⟩
              rw [hstep] at this
              exact Option.noConfusion this
            · exact ⟨u, hm2, kv, hkv, hnm⟩

theorem addAdditional_triple (ad : List (String × EmissionValue)) (a b c : ℚ)
    (h : ∀ kv ∈ ad, valueKeysOk kv.2) :
    addAdditional [("CO2", a), ("CH4", b), ("N2O", c)] ad
      = some [("CO2", a + additionalAmount ad "CO2"), ("CH4", b + additionalAmount ad "CH4"),
              ("N2O", c + additionalAmount ad "N2O")] := by
  induction ad generalizing a b c with
  | nil => simp [addAdditional, additionalAmount]
  | cons kv rest ih =>
      obtain ⟨name, val⟩ := kv
      have hrest : ∀ kv ∈ rest, valueKeysOk kv.2 :=
        fun kv hm => h kv (List.mem_cons_of_mem _ hm)
      cases val with
      | record d =>
          have hd : ∀ kv ∈ d, kv.1 = "CO2" ∨ kv.1 = "CH4" ∨ kv.1 = "N2O" :=
            h (name, EmissionValue.record d) (List.mem_cons_self _ _)
          simp only [addAdditional, addRecordInto_triple d a b c hd]
          rw [ih _ _ _ hrest]
          simp [additionalAmount, add_assoc]
      | scalar v =>
          simp only [addAdditional, dictAddExisting_triple_co2]
          rw [ih _ _ _ hrest]
          simp [additionalAmount, add_assoc]

theorem addAdditional_keys (ad : List (String × EmissionValue)) (acc acc2 : EmissionsDict)
    (h : addAdditional acc ad = some acc2) : dictKeys acc2 = dictKeys acc := by
  induction ad generalizing acc with
  | nil =>
      rw [addAdditional] at h
      obtain rfl := Option.some.inj h
      rfl
  | cons kv rest ih =>
      obtain ⟨name, val⟩ := kv
      cases val with
      | record d =>
          rw [addAdditional] at h
          cases hstep : addRecordInto acc d with
          | none => rw [hstep] at h; exact Option.noConfusion h
          | some a2 =>
              rw [hstep] at h
              rw [ih a2 h, addRecordInto_keys d acc a2 hstep]
      | scalar v =>
          rw [addAdditional] at h
          cases hstep : dictAddExisting acc "CO2" v with
          | none => rw [hstep] at h; exact Option.noConfusion h
          | some a2 =>
              rw [hstep] at h
              rw [ih a2 h, dictAddExisting_keys acc a2 "CO2" v hstep]

theorem addAdditional_none_iff (ad : List (String × EmissionValue)) (acc : EmissionsDict)
    (hco2 : "CO2" ∈ dictKeys acc) :
    addAdditional acc ad = none ↔
      ∃ kv ∈ ad, ∃ d, kv.2 = EmissionValue.record d ∧ ∃ e ∈ d, e.1 ∉ dictKeys acc := by
  induction ad generalizing acc with
  | nil => simp [addAdditional]
  | cons kv rest ih =>
      obtain ⟨name, val⟩ := kv
      cases val with
      | scalar v =>
          simp only [addAdditional]
          cases hstep : dictAddExisting acc "CO2" v with
          | none =>
              exact absurd hco2 ((dictAddExisting_eq_none_iff acc "CO2" v).mp hstep)
          | some acc2 =>
              have hkeys := dictAddExisting_keys acc acc2 "CO2" v hstep
              rw [ih acc2 (by rw [hkeys]; exact hco2), hkeys]
              constructor
              · rintro ⟨kv, hm, hd⟩
                exact ⟨kv, List.mem_cons_of_mem _ hm, hd⟩
              · rintro ⟨kv, hm, d, hd, he⟩
                rcases List.mem_cons.mp hm with rfl | hm2
                · exact EmissionValue.noConfusion hd
                · exact ⟨kv, hm2, d, hd, he⟩
      | record d =>
          simp only [addAdditional]
          cases hstep : addRecordInto acc d with
          | none =>
              have hex := (addRecordInto_none_iff d acc).mp hstep
              exact iff_of_true rfl
                ⟨(name, EmissionValue.record d), List.mem_cons_self _ _, d, rfl, hex⟩
          | some acc2 =>
              have hkeys := addRecordInto_keys d acc acc2 hstep
              rw [ih acc2 (by rw [hkeys]; exact hco2), hkeys]
              constructor
              · rintro ⟨kv, hm, hd⟩
                exact ⟨kv, List.mem_cons_of_mem _ hm, hd⟩
              · rintro ⟨kv, hm, d2, hd2, he⟩
                rcases List.mem_cons.mp hm with rfl | hm2
                · exfalso
                  obtain rfl : d = d2 := EmissionValue.record.inj hd2
                  have : addRecordInto acc d = none := (addRecordInto_none_iff d acc).mpr he
                  rw [hstep] at this
                  exact Option.noConfusion this
                · exact ⟨kv, hm2, d2, hd2, he⟩

/-- Claim C2: consolidation adds every transport record pollutant-wise,
adds every nested record of the additional mapping pollutant-wise, and
adds every bare scalar of the additional mapping entirely into the CO2
bucket; the documented mixed-shape example evaluates to
CO2 = 65, CH4 = 1.5, N2O = 0.15. -/
theorem C2_consolidation (ts : List (String × EmissionsDict)) (ad : List (String × EmissionValue))
    (hts : ∀ u ∈ ts, ∀ kv ∈ u.2, kv.1 = "CO2" ∨ kv.1 = "CH4" ∨ kv.1 = "N2O")
    (had : ∀ kv ∈ ad, valueKeysOk kv.2) :
    consolidate_scenario_emissions ts ad
      = some [("CO2", transportAmount ts "CO2" + additionalAmount ad "CO2"),
              ("CH4", transportAmount ts "CH4" + additionalAmount ad "CH4"),
              ("N2O", transportAmount ts "N2O" + additionalAmount ad "N2O")] ∧
    consolidate_scenario_emissions
        [("A", [("CO2", 10), ("CH4", 1), ("N2O", 0.1)])]
        [("solar", EmissionValue.scalar 50),
         ("diesel", EmissionValue.record [("CO2", 5), ("CH4", 0.5), ("N2O", 0.05)])]
      = some [("CO2", 65), ("CH4", 1.5), ("N2O", 0.15)] := by
  constructor
  · simp only [consolidate_scenario_emissions, addTransport_triple ts 0 0 0 hts]
    rw [addAdditional_triple ad _ _ _ had]
    simp [zero_add]
  · have h1 := addTransport_triple [("A", [("CO2", (10 : ℚ)), ("CH4", 1), ("N2O", 0.1)])]
      0 0 0 (by decide)
    simp only [consolidate_scenario_emissions, h1]
    rw [addAdditional_triple [("solar", EmissionValue.scalar (50 : ℚ)),
      ("diesel", EmissionValue.record [("CO2", 5), ("CH4", 0.5), ("N2O", 0.05)])] _ _ _
      (by decide)]
    simp +decide [transportAmount, additionalAmount, amountAt_cons, amountAt_nil]
    norm_num

/-- Claim C10: consolidation signals a lookup error (none, modelling the
KeyError on the running total) exactly when some transport record or some
nested record of the additional mapping carries a pollutant key outside
the fixed set CO2, CH4, N2O. -/
theorem C10_consolidation_unknown_keys (ts : List (String × EmissionsDict))
    (ad : List (String × EmissionValue)) :
    consolidate_scenario_emissions ts ad = none ↔
      ((∃ u ∈ ts, ∃ kv ∈ u.2, ¬(kv.1 = "CO2" ∨ kv.1 = "CH4" ∨ kv.1 = "N2O")) ∨
       (∃ kv ∈ ad, ∃ d, kv.2 = EmissionValue.record d ∧
         ∃ e ∈ d, ¬(e.1 = "CO2" ∨ e.1 = "CH4" ∨ e.1 = "N2O"))) := by
  simp only [consolidate_scenario_emissions]
  cases hstep : addTransport [("CO2", 0), ("CH4", 0), ("N2O", 0)] ts with
  | none =>
      obtain ⟨u, hu, kv, hkv, hnm⟩ := (addTransport_none_iff ts _).mp hstep
      refine iff_of_true rfl (Or.inl ⟨u, hu, kv, hkv, ?_⟩)
      simpa [dictKeys] using hnm
  | some acc =>
      have hkeys := addTransport_keys ts _ acc hstep
      have hnot : ¬∃ u ∈ ts, ∃ kv ∈ u.2,
          kv.1 ∉ dictKeys [("CO2", (0 : ℚ)), ("CH4", 0), ("N2O", 0)] := by
        intro hex
        have hnone : addTransport [("CO2", (0 : ℚ)), ("CH4", 0), ("N2O", 0)] ts = none :=
          (addTransport_none_iff ts _).mpr hex
        rw [hstep] at hnone
        exact Option.noConfusion hnone
      rw [addAdditional_none_iff ad acc (by rw [hkeys]; simp [dictKeys])]
      constructor
      · rintro ⟨kv, hm, d, hd, e, he, hnm⟩
        rw [hkeys] at hnm
        exact Or.inr ⟨kv, hm, d, hd, e, he, by simpa [dictKeys] using hnm⟩
      · rintro (hbad | ⟨kv, hm, d, hd, e, he, hnm⟩)
        · exfalso
          apply hnot
          obtain ⟨u, hu, kv, hkv, hnm⟩ := hbad
          exact ⟨u, hu, kv, hkv, by simpa [dictKeys] using hnm⟩
        · refine ⟨kv, hm, d, hd, e, he, ?_⟩
          rw [hkeys]
          simpa [dictKeys] using hnm

/-- Claim C6 as amended: the CO2-equivalent conversion fails with a
lookup error exactly when one of the keys CO2, CH4 or N2O is missing,
and succeeds when all three are present; scenario consolidation, however,
does not fail on records that are missing required keys: whenever every
key of every record lies inside the fixed pollutant set, consolidation
succeeds, even if some records omit some of the three pollutants. -/
theorem C6_missing_keys (d : EmissionsDict) (ts : List (String × EmissionsDict))
    (ad : List (String × EmissionValue)) :
    (calculate_co2_equivalent d = none ↔
      (dictLookup d "CO2" = none ∨ dictLookup d "CH4" = none ∨ dictLookup d "N2O" = none)) ∧
    ((∀ u ∈ ts, ∀ kv ∈ u.2, kv.1 = "CO2" ∨ kv.1 = "CH4" ∨ kv.1 = "N2O") →
      (∀ kv ∈ ad, valueKeysOk kv.2) →
      consolidate_scenario_emissions ts ad ≠ none) := by
  constructor
  · unfold calculate_co2_equivalent
    cases h1 : dictLookup d "CO2" <;> cases h2 : dictLookup d "CH4" <;>
      cases h3 : dictLookup d "N2O" <;> simp
  · intro hts had
    simp only [consolidate_scenario_emissions, addTransport_triple ts 0 0 0 hts]
    rw [addAdditional_triple ad _ _ _ had]
    simp

/-- Counterexample to claim C6 as stated: the transport record for unit A
is missing the required keys CH4 and N2O, yet consolidation does not fail
with a lookup error; it succeeds and treats the absent pollutants as
contributing nothing. -/
theorem C6_counterexample :
    consolidate_scenario_emissions [("A", [("CO2", (5 : ℚ))])] []
      = some [("CO2", 5), ("CH4", 0), ("N2O", 0)] := by
  have h1 := addTransport_triple [("A", [("CO2", (5 : ℚ))])] 0 0 0 (by decide)
  simp only [consolidate_scenario_emissions, h1, addAdditional]
  simp +decide [transportAmount, amountAt_cons, amountAt_nil]

/-- Witness for C5 at a concrete pair of records sharing the key CO2. -/
theorem C5_sum_emissions_witness :
    (∀ d ∈ [[("CO2", (1 : ℚ)), ("NOx", 2)], [("CO2", 3)]], (dictKeys d).Nodup) ∧
    ((dictLookup (sum_emissions [[("CO2", (1 : ℚ)), ("NOx", 2)], [("CO2", 3)]]) "CO2" = none ↔
        ∀ d ∈ [[("CO2", (1 : ℚ)), ("NOx", 2)], [("CO2", 3)]], dictLookup d "CO2" = none) ∧
      ((∃ d ∈ [[("CO2", (1 : ℚ)), ("NOx", 2)], [("CO2", 3)]], dictLookup d "CO2" ≠ none) →
        dictLookup (sum_emissions [[("CO2", (1 : ℚ)), ("NOx", 2)], [("CO2", 3)]]) "CO2"
          = some (([[("CO2", (1 : ℚ)), ("NOx", 2)], [("CO2", 3)]].map
              (fun d => dictGetD d "CO2")).sum))) :=
  ⟨by decide, C5_sum_emissions [[("CO2", (1 : ℚ)), ("NOx", 2)], [("CO2", 3)]] (by decide) "CO2"⟩

/-- Witness for C2 at the documented mixed-shape example. -/
theorem C2_consolidation_witness :
    consolidate_scenario_emissions
        [("A", [("CO2", (10 : ℚ)), ("CH4", 1), ("N2O", 0.1)])]
        [("solar", EmissionValue.scalar 50),
         ("diesel", EmissionValue.record [("CO2", 5), ("CH4", 0.5), ("N2O", 0.05)])]
      = some [("CO2", 65), ("CH4", 1.5), ("N2O", 0.15)] :=
  (C2_consolidation [("A", [("CO2", (10 : ℚ)), ("CH4", 1), ("N2O", 0.1)])]
    [("solar", EmissionValue.scalar 50),
     ("diesel", EmissionValue.record [("CO2", 5), ("CH4", 0.5), ("N2O", 0.05)])]
    (by decide) (by decide)).2

/-- Witness for C6 at a complete record, a transport mapping, and a scalar
additional mapping. -/
theorem C6_missing_keys_witness :
    (calculate_co2_equivalent [("CO2", (1 : ℚ)), ("CH4", 2), ("N2O", 3)] = none ↔
      (dictLookup [("CO2", (1 : ℚ)), ("CH4", 2), ("N2O", 3)] "CO2" = none ∨
       dictLookup [("CO2", (1 : ℚ)), ("CH4", 2), ("N2O", 3)] "CH4" = none ∨
       dictLookup [("CO2", (1 : ℚ)), ("CH4", 2), ("N2O", 3)] "N2O" = none)) ∧
    consolidate_scenario_emissions [("A", [("CO2", (10 : ℚ))])]
        [("solar", EmissionValue.scalar 50)] ≠ none :=
  ⟨(C6_missing_keys [("CO2", (1 : ℚ)), ("CH4", 2), ("N2O", 3)]
      [("A", [("CO2", (10 : ℚ))])] [("solar", EmissionValue.scalar 50)]).1,
   (C6_missing_keys [("CO2", (1 : ℚ)), ("CH4", 2), ("N2O", 3)]
      [("A", [("CO2", (10 : ℚ))])] [("solar", EmissionValue.scalar 50)]).2
     (by decide) (by decide)⟩

/-- Claim C4: for every non-degenerate scenario input (nonzero turbine
unit power, nonzero wind target so that trucks have a nonzero vehicle
count, nonzero BESS energy target likewise), the scenario composer returns
exactly the four named component totals, each the Sum aggregator over one
full-cargo tanker leg with 1 tanker, one tanker leg carrying half the
component weight with 2 tankers, and one truck leg splitting the component
weight across the component-specific vehicle count; no embodied or
production emissions appear in the result. -/
theorem C4_scenario_transport (target_solar turbine_power target_wind
    target_bess_power target_bess_energy target_diesel : ℚ)
    (htp : turbine_power ≠ 0) (hw : target_wind ≠ 0) (hbe : target_bess_energy ≠ 0) :
    transportation_scenario_emissions target_solar turbine_power target_wind
      target_bess_power target_bess_energy target_diesel
      = some
        [("wind_turbines_transport", sum_emissions
            [calculate_tanker_emissions 6900 (target_wind / turbine_power * 19.8) 1,
             calculate_tanker_emissions 2415 (target_wind / turbine_power * 19.8 / 2) 2,
             calculate_truck_emissions 1030
               (target_wind / turbine_power * 19.8 / (target_wind / turbine_power * 7))
               (target_wind / turbine_power * 7)]),
         ("pv_panels_transport", sum_emissions
            [calculate_tanker_emissions 6900 (target_solar * 160 / 907185) 1,
             calculate_tanker_emissions 2415 (target_solar * 160 / 907185 / 2) 2,
             calculate_truck_emissions 1030 (target_solar * 160 / 907185 / 9) 9]),
         ("bess_units_transport", sum_emissions
            [calculate_tanker_emissions 6900
               (target_bess_energy / 1240 * (18000 / 1000)) 1,
             calculate_tanker_emissions 2415
               (target_bess_energy / 1240 * (18000 / 1000) / 2) 2,
             calculate_truck_emissions 100
               (target_bess_energy / 1240 * (18000 / 1000) / (target_bess_energy / 1240))
               (target_bess_energy / 1240)]),
         ("diesel_transport", sum_emissions
            [calculate_tanker_emissions 6900 (target_diesel * 6.5 / 2000) 1,
             calculate_tanker_emissions 2415 (target_diesel * 6.5 / 2000 / 2) 2,
             calculate_truck_emissions 1030 (target_diesel * 6.5 / 2000 / 9) 9])] := by
  have h1 : target_wind / turbine_power ≠ 0 := div_ne_zero hw htp
  have h2 : target_wind / turbine_power * 7 ≠ 0 := mul_ne_zero h1 (by norm_num)
  have h3 : target_bess_energy / 1240 ≠ 0 := div_ne_zero hbe (by norm_num)
  simp [transportation_scenario_emissions, pydiv, htp, hw, hbe, h1, h2, h3]

/-- Witness for C4 at the concrete scenario from the source docstring. -/
theorem C4_scenario_transport_witness :
    (1000 : ℚ) ≠ 0 ∧ (20000 : ℚ) ≠ 0 ∧ (10000 : ℚ) ≠ 0 ∧
    transportation_scenario_emissions 5000 1000 20000 500 10000 2000
      = some
        [("wind_turbines_transport", sum_emissions
            [calculate_tanker_emissions 6900 ((20000 : ℚ) / 1000 * 19.8) 1,
             calculate_tanker_emissions 2415 ((20000 : ℚ) / 1000 * 19.8 / 2) 2,
             calculate_truck_emissions 1030
               ((20000 : ℚ) / 1000 * 19.8 / ((20000 : ℚ) / 1000 * 7))
               ((20000 : ℚ) / 1000 * 7)]),
         ("pv_panels_transport", sum_emissions
            [calculate_tanker_emissions 6900 ((5000 : ℚ) * 160 / 907185) 1,
             calculate_tanker_emissions 2415 ((5000 : ℚ) * 160 / 907185 / 2) 2,
             calculate_truck_emissions 1030 ((5000 : ℚ) * 160 / 907185 / 9) 9]),
         ("bess_units_transport", sum_emissions
            [calculate_tanker_emissions 6900
               ((10000 : ℚ) / 1240 * (18000 / 1000)) 1,
             calculate_tanker_emissions 2415
               ((10000 : ℚ) / 1240 * (18000 / 1000) / 2) 2,
             calculate_truck_emissions 100
               ((10000 : ℚ) / 1240 * (18000 / 1000) / ((10000 : ℚ) / 1240))
               ((10000 : ℚ) / 1240)]),
         ("diesel_transport", sum_emissions
            [calculate_tanker_emissions 6900 ((2000 : ℚ) * 6.5 / 2000) 1,
             calculate_tanker_emissions 2415 ((2000 : ℚ) * 6.5 / 2000 / 2) 2,
             calculate_truck_emissions 1030 ((2000 : ℚ) * 6.5 / 2000 / 9) 9])] :=
  ⟨by norm_num, by norm_num, by norm_num,
    C4_scenario_transport 5000 1000 20000 500 10000 2000
      (by norm_num) (by norm_num) (by norm_num)⟩
